import Mathlib

/-!
Verification of the Thruster Kill Board firmware (Thruster_Kill_Board.c and
MIL_CAN.c) against its natural-language specification.

The embedding models the pure content of the firmware: the CAN payload
constants, the message-classification functions, the hall-sensor check and
configuration functions, the thrust-to-pulse-width mapping, and the ordered
side-effect traces of the kill, unkill and initialization sequences.
Hardware register writes are represented as explicit action values in the
order the source issues them.
-/

/- ========================= CAN payload constants ========================= -/

/-- Length of the kill-group CAN payloads, C_KILL_LEN in the source. -/
def C_KILL_LEN : Nat := 5

/-- Length of the go-group CAN payloads, C_GO_LEN in the source. -/
def C_GO_LEN : Nat := 3

/-- Semantics of a C char array initialized from a string literal: the
string's characters truncated to the declared array length, padded with NUL
bytes up to that length. -/
def cStrArray (chars : List UInt8) (len : Nat) : List UInt8 :=
  chars.take len ++ List.replicate (len - chars.length) 0

/-- Payload KRHA, transmitted-status hard killed, from Hard_Killed in the
source: a char array of length C_KILL_LEN initialized with bytes
0x4B 0x52 0x48 0x41. -/
def Hard_Killed : List UInt8 := cStrArray [0x4B, 0x52, 0x48, 0x41] C_KILL_LEN

/-- Payload KRSA, transmitted-status soft killed, from Soft_Killed in the
source. -/
def Soft_Killed : List UInt8 := cStrArray [0x4B, 0x52, 0x53, 0x41] C_KILL_LEN

/-- Payload KRHU, transmitted-status hard unkilled, from Hard_UnKilled in
the source. -/
def Hard_UnKilled : List UInt8 := cStrArray [0x4B, 0x52, 0x48, 0x55] C_KILL_LEN

/-- Payload KRSU, transmitted-status soft unkilled, from Soft_UnKilled in
the source. -/
def Soft_UnKilled : List UInt8 := cStrArray [0x4B, 0x52, 0x53, 0x55] C_KILL_LEN

/-- Payload GA, transmitted-status go asserted, from Go_Asserted in the
source: a char array of length C_GO_LEN initialized with bytes 0x47 0x41. -/
def Go_Asserted : List UInt8 := cStrArray [0x47, 0x41] C_GO_LEN

/-- Payload GU, transmitted-status go unasserted, from Go_UnAsserted in the
source. -/
def Go_UnAsserted : List UInt8 := cStrArray [0x47, 0x55] C_GO_LEN

/-- Semantic status events whose transmission the firmware encodes with the
constant payload arrays above. -/
inductive StatusEvent
  | hardKilled
  | softKilled
  | hardUnkilled
  | softUnkilled
  | goAsserted
  | goUnasserted
  deriving DecidableEq

/-- Payload array the firmware transmits for each status event, as wired in
the source: each transmit site passes the matching constant array. -/
def statusPayload : StatusEvent → List UInt8
  | .hardKilled => Hard_Killed
  | .softKilled => Soft_Killed
  | .hardUnkilled => Hard_UnKilled
  | .softUnkilled => Soft_UnKilled
  | .goAsserted => Go_Asserted
  | .goUnasserted => Go_UnAsserted

/-- Length constant the firmware passes alongside each status payload:
C_KILL_LEN for the four kill frames, C_GO_LEN for the two go frames. -/
def statusLen : StatusEvent → Nat
  | .hardKilled => C_KILL_LEN
  | .softKilled => C_KILL_LEN
  | .hardUnkilled => C_KILL_LEN
  | .softUnkilled => C_KILL_LEN
  | .goAsserted => C_GO_LEN
  | .goUnasserted => C_GO_LEN

/- ======================= inbound message classification ================== -/

/-- Modelled from the spec: MSG_TYPE_IDX is declared in Thruster_Kill_Board.h,
which is not under src/; the spec says a type-tag byte sits at a fixed offset.
The classification theorems hold for any choice of this value. -/
def MSG_TYPE_IDX : Nat := 0

/-- Modelled from the spec: KILL_START_BYTE is declared in the header not
under src/. The classification theorems hold for any choice of this value. -/
def KILL_START_BYTE : UInt8 := 0x4B

/-- Modelled from the spec: THRUST_START_BYTE is declared in the header not
under src/. The classification theorems hold for any choice of this value. -/
def THRUST_START_BYTE : UInt8 := 0x54

/-- Translation of TKB_Check_KillMsg: returns 1 when the byte at the type-tag
offset equals the kill start byte, 0 otherwise. A received message is embedded
as a function from byte index to byte value. -/
def TKB_Check_KillMsg (pMsg : Nat → UInt8) : UInt8 :=
  if pMsg MSG_TYPE_IDX = KILL_START_BYTE then 0x01 else 0x00

/-- Translation of TKB_Check_ThrustMsg: returns 1 when the byte at the
type-tag offset equals the thrust start byte, 0 otherwise. -/
def TKB_Check_ThrustMsg (pMsg : Nat → UInt8) : UInt8 :=
  if pMsg MSG_TYPE_IDX = THRUST_START_BYTE then 0x01 else 0x00

/- ============================ hall sensors =============================== -/

/-- Logical high result of the hall check functions; the source comment
documents the high output as 0xFF. -/
def HALL_HI : UInt8 := 0xFF

/-- Logical low result of the hall check functions; the source comment
documents the low output as 0x00. -/
def HALL_LO : UInt8 := 0x00

/-- Modelled from the spec: HALL_ACT_LO is declared in the header not under
src/; only its distinctness from HALL_ACT_HI matters to the theorems. -/
def HALL_ACT_LO : UInt8 := 0x00

/-- Modelled from the spec: HALL_ACT_HI is declared in the header not under
src/; only its distinctness from HALL_ACT_LO matters to the theorems. -/
def HALL_ACT_HI : UInt8 := 0xFF

/-- Configured activation polarity of the hall sensors, as named by the
specification. -/
inductive ActivationLevel
  | activeHigh
  | activeLow
  deriving DecidableEq

/-- Specification-side definition, written from the spec's words for
comparison with the source functions: a magnet is present when the raw pin
level matches the configured polarity, so under ActiveLow a low raw reading
means the magnet is present. -/
def magnetPresentSpec (lvl : ActivationLevel) (raw : Bool) : Bool :=
  match lvl with
  | .activeHigh => raw
  | .activeLow => !raw

/-- Translation of HALL_CheckGo: reads the go pin and returns HALL_HI when
the raw level is high, HALL_LO otherwise. The raw pin level is the argument. -/
def HALL_CheckGo (raw : Bool) : UInt8 :=
  if raw then HALL_HI else HALL_LO

/-- Translation of HALL_CheckSoftKill: returns HALL_HI when the raw soft-kill
pin level is high, HALL_LO otherwise. -/
def HALL_CheckSoftKill (raw : Bool) : UInt8 :=
  if raw then HALL_HI else HALL_LO

/-- Translation of HALL_Check_ON_OFF: returns HALL_HI when the raw on/off pin
level is high, HALL_LO otherwise. -/
def HALL_Check_ON_OFF (raw : Bool) : UInt8 :=
  if raw then HALL_HI else HALL_LO

/-- Pull resistor direction selected by the Init_HALL_IO switch. -/
inductive PullType
  | weakPullUp
  | weakPullDown
  deriving DecidableEq

/-- Edge polarity selected by the Init_HALL_IO switch as the magnet-removed
transition. -/
inductive EdgeType
  | rising
  | falling
  deriving DecidableEq

/-- The three hall sensor pins. -/
inductive HallPin
  | softkill
  | go
  | onOff
  deriving DecidableEq

/-- GPIO configuration calls available during hall-sensor initialization:
configuring a pin as input, configuring its pad with a pull direction, and
configuring an edge-triggered interrupt on it. -/
inductive HallCfgAction
  | setInput (pin : HallPin)
  | padConfig (pin : HallPin) (pull : PullType)
  | intConfig (pin : HallPin) (edge : EdgeType)
  deriving DecidableEq

/-- Translation of the switch in Init_HALL_IO that selects the pull direction
and the magnet-removed edge from the activation level: HALL_ACT_LO gives weak
pull-up and rising edge, HALL_ACT_HI gives weak pull-down and falling edge,
and the default case gives weak pull-down and falling edge. -/
def hallPullEdge (lvl : UInt8) : PullType × EdgeType :=
  if lvl = HALL_ACT_LO then (.weakPullUp, .rising)
  else if lvl = HALL_ACT_HI then (.weakPullDown, .falling)
  else (.weakPullDown, .falling)

/-- Translation of Init_HALL_IO: configures the three hall pins as inputs and
pad-configures each with the selected pull direction, in source order. The
switch also computes an edge value, but the function body issues no interrupt
or edge configuration call, so no intConfig action appears in the trace. -/
def Init_HALL_IO (lvl : UInt8) : List HallCfgAction :=
  [ .setInput .softkill
  , .setInput .go
  , .setInput .onOff
  , .padConfig .softkill (hallPullEdge lvl).1
  , .padConfig .go (hallPullEdge lvl).1
  , .padConfig .onOff (hallPullEdge lvl).1 ]

/- =========================== thrust mapper =============================== -/

/-- Modelled from the spec: MIL_BR_linear_per lives in MIL_BR_ESC.c, which is
not under src/. Per the spec it linearly interpolates between full-reverse,
neutral and full-forward pulse widths for the 2000 microsecond Blue Robotics
ESC protocol, clamping out-of-range speed to the nearest bound. Reverse width
in microseconds. -/
def BR_REV_US : ℚ := 1100

/-- Modelled from the spec: neutral/stop pulse width in microseconds of the
Blue Robotics ESC protocol, from the header not under src/. -/
def BR_STOP_US : ℚ := 1500

/-- Modelled from the spec: full-forward pulse width in microseconds of the
Blue Robotics ESC protocol, from the header not under src/. -/
def BR_FWD_US : ℚ := 1900

/-- Modelled from the spec: ESC protocol period in microseconds; the source
sets every generator to the 2000 microsecond Blue Robotics period. -/
def BR_PERIOD_US : ℚ := 2000

/-- Clamp a speed value into the closed interval from -1 to 1, as the spec
requires for out-of-range input. -/
def clampSpeed (s : ℚ) : ℚ := max (-1) (min 1 s)

/-- Modelled from the spec: the thrust-to-pulse-width mapping of
MIL_BR_linear_per, whose source is not under src/. The clamped speed is
linearly interpolated between reverse, neutral and forward widths, scaled
from the protocol period to the generator period given in timer ticks. -/
def MIL_BR_linear_per (speed : ℚ) (period : ℚ) : ℚ :=
  (if 0 ≤ clampSpeed speed then
     BR_STOP_US + clampSpeed speed * (BR_FWD_US - BR_STOP_US)
   else
     BR_STOP_US + clampSpeed speed * (BR_STOP_US - BR_REV_US)) / BR_PERIOD_US * period

/-- Modelled from the spec: the stop pulse width PWM_STOP_PER for a generator
of the given period, from the header not under src/: the neutral width scaled
from the protocol period to the generator period. -/
def PWM_STOP_PER (period : ℚ) : ℚ := BR_STOP_US / BR_PERIOD_US * period

/- ====================== CAN transmit wrapper ============================= -/

/-- Modelled from the spec: TKB_CANID, the configured CAN identifier of this
board, is declared in the header not under src/; no theorem depends on its
value. -/
def TKB_CANID : Nat := 0x1

/-- Modelled from the spec: TKB_CAN_BASE, the CAN module base address used by
the board, is declared in the header not under src/; no theorem depends on
its value. -/
def TKB_CAN_BASE : Nat := 0x0

/-- Hardware CAN message-object write performed by CANMessageSet: the message
identifier, flags, length and payload of the temporary object, the hardware
object number programmed, and the CAN module base. -/
structure TxMsgObject where
  msgID : Nat
  flags : Nat
  msgLen : Nat
  data : List UInt8
  objNum : Nat
  base : Nat
  deriving DecidableEq

/-- Translation of MIL_CANSimpleTX (MIL_CAN.c): declares a temporary message
object carrying the caller's identifier, flags 0, the caller's length and
payload, and programs hardware message object number 0 on the given base with
it as a transmit object. -/
def MIL_CANSimpleTX (canid : Nat) (pMsg : List UInt8) (msgLen : Nat) (base : Nat) : TxMsgObject :=
  { msgID := canid, flags := 0, msgLen := msgLen, data := pMsg, objNum := 0, base := base }

/- ====================== side-effect traces =============================== -/

/-- The eight thruster output channels, front/back by horizontal/vertical by
left/right. -/
inductive ThrusterPin
  | fhl
  | fhr
  | fvl
  | fvr
  | bhl
  | bhr
  | bvl
  | bvr
  deriving DecidableEq

/-- Side effects the kill-board sequences issue, in source order: a pulse
width applied to one channel, PWM output enable and disable, thruster and
main power control, one-second delays, and CAN message-object transmissions. -/
inductive TKBAction
  | setPulse (pin : ThrusterPin) (width : ℚ)
  | pwmEnable
  | pwmDisable
  | powerThrusters
  | killThrusters
  | powerMain
  | killMain
  | delaySec
  | canTX (obj : TxMsgObject)
  deriving DecidableEq

/-- Translation of TKB_StopAllThrust: eight PWMPulseWidthSet calls applying
the stop pulse width, in source order FHL, FHR, FVL, FVR, BHL, BHR, BVL, BVR;
every generator is configured to the ESC protocol period. -/
def TKB_StopAllThrust : List TKBAction :=
  [ .setPulse .fhl (PWM_STOP_PER BR_PERIOD_US)
  , .setPulse .fhr (PWM_STOP_PER BR_PERIOD_US)
  , .setPulse .fvl (PWM_STOP_PER BR_PERIOD_US)
  , .setPulse .fvr (PWM_STOP_PER BR_PERIOD_US)
  , .setPulse .bhl (PWM_STOP_PER BR_PERIOD_US)
  , .setPulse .bhr (PWM_STOP_PER BR_PERIOD_US)
  , .setPulse .bvl (PWM_STOP_PER BR_PERIOD_US)
  , .setPulse .bvr (PWM_STOP_PER BR_PERIOD_US) ]

/-- Translation of TKB_IdleThrusters: its body only calls TKB_StopAllThrust;
despite its comment it issues no PWM output disable. -/
def TKB_IdleThrusters : List TKBAction := TKB_StopAllThrust

/-- Translation of TKB_SoftKill: idle the thrusters, kill thruster power,
transmit the Soft_Killed payload through MIL_CANSimpleTX. -/
def TKB_SoftKill : List TKBAction :=
  TKB_IdleThrusters ++
  [ .killThrusters
  , .canTX (MIL_CANSimpleTX TKB_CANID Soft_Killed C_KILL_LEN TKB_CAN_BASE) ]

/-- Translation of TKB_HardKill: run TKB_SoftKill, transmit the Hard_Killed
payload, loop five one-second delays, then kill main power. -/
def TKB_HardKill : List TKBAction :=
  TKB_SoftKill ++
  [ .canTX (MIL_CANSimpleTX TKB_CANID Hard_Killed C_KILL_LEN TKB_CAN_BASE) ] ++
  List.replicate 5 .delaySec ++
  [ .killMain ]

/-- Translation of TKB_Init_ESC: power the thrusters, loop two one-second
delays, apply the stop pulse width to all eight channels (written out inline
in the source, identical to the TKB_StopAllThrust block), then enable PWM
output. -/
def TKB_Init_ESC : List TKBAction :=
  [ .powerThrusters ] ++
  List.replicate 2 .delaySec ++
  TKB_StopAllThrust ++
  [ .pwmEnable ]

/-- Translation of TKB_UnKill: power main, power thrusters, then run
TKB_Init_ESC. -/
def TKB_UnKill : List TKBAction :=
  [ .powerMain, .powerThrusters ] ++ TKB_Init_ESC

/- ====================== kill state machine =============================== -/

/-- The three safety states of the kill state machine. -/
inductive KillState
  | running
  | softKilled
  | hardKilled
  deriving DecidableEq

/-- Semantic events consumed by the kill state machine. -/
inductive KillEvent
  | hardKillReq
  | onOffRemoved
  | hardUnkillReq
  | softKillReq
  | cmdTimeout
  | softMagnetAsserted
  | goMagnetDeasserted
  | softUnkillReq (goMagnet : Bool) (onOffMagnet : Bool)
  | thrustCmd (pin : ThrusterPin) (speed : ℚ)
  deriving DecidableEq

/-- Modelled from the spec: the main-loop dispatch that owns the kill state
is not under src/ (only the sequence functions are). Next states follow the
spec's transition table; each transition's action list is the trace of the
corresponding source function. Unhandled events leave the state unchanged
with no side effect. -/
def killStep (s : KillState) (e : KillEvent) : KillState × List TKBAction :=
  match s, e with
  | _, .hardKillReq => (.hardKilled, TKB_HardKill)
  | _, .onOffRemoved => (.hardKilled, TKB_HardKill)
  | .hardKilled, .hardUnkillReq => (.running, TKB_UnKill)
  | .running, .softKillReq => (.softKilled, TKB_SoftKill)
  | .running, .cmdTimeout => (.softKilled, TKB_SoftKill)
  | .running, .softMagnetAsserted => (.softKilled, TKB_SoftKill)
  | .running, .goMagnetDeasserted => (.softKilled, TKB_SoftKill)
  | .softKilled, .softUnkillReq goMag onOffMag =>
      if goMag && onOffMag then
        (.running,
         [ .pwmEnable
         , .canTX (MIL_CANSimpleTX TKB_CANID Soft_UnKilled C_KILL_LEN TKB_CAN_BASE) ])
      else (.softKilled, [])
  | .running, .thrustCmd pin speed =>
      (.running, [ .setPulse pin (MIL_BR_linear_per speed BR_PERIOD_US) ])
  | s, _ => (s, [])

/- ========================= helper lemmas ================================= -/

/-- Clamping is the identity on speeds already inside the interval. -/
theorem clampSpeed_eq_of (s : ℚ) (h1 : -1 ≤ s) (h2 : s ≤ 1) : clampSpeed s = s := by
  unfold clampSpeed
  rw [min_eq_right h2, max_eq_right h1]

/-- With the modelled Blue Robotics widths the two interpolation branches
have the same slope, so the piecewise core is one linear function. -/
theorem linear_core_eq (s : ℚ) :
    (if 0 ≤ s then BR_STOP_US + s * (BR_FWD_US - BR_STOP_US)
     else BR_STOP_US + s * (BR_STOP_US - BR_REV_US)) = 1500 + 400 * s := by
  unfold BR_STOP_US BR_FWD_US BR_REV_US
  split <;> ring

/-- Outcome of the one-if-zero-else pattern shared by both message checks. -/
theorem check_byte_eq (x c : UInt8) :
    ((if x = c then (0x01 : UInt8) else 0x00) = 0x01 ↔ x = c) ∧
    ((if x = c then (0x01 : UInt8) else 0x00) = 0x00 ↔ x ≠ c) := by
  constructor <;> split <;> simp_all

/- ========================= claim theorems ================================ -/

/-- C1 counterexample: on the source trace of a hard kill, the last action is
cutting main power, not transmitting the HardKilled status frame; the
HardKilled frame goes out before the fixed delay and before main power is
cut, and no PWM-output-disable action occurs anywhere in the sequence. -/
theorem C1_counterexample :
    TKB_HardKill.getLast? = some TKBAction.killMain ∧
    TKBAction.pwmDisable ∉ TKB_HardKill ∧
    TKB_HardKill.getLast? ≠
      some (TKBAction.canTX (MIL_CANSimpleTX TKB_CANID Hard_Killed C_KILL_LEN TKB_CAN_BASE)) := by
  refine ⟨by decide, by decide, by decide⟩

/-- C1 (amended): from any state, a HardKillRequest or the on/off
magnet-removed edge runs the hard-kill sequence, whose actions in order are:
the eight stop pulses, cut thruster power, transmit the SoftKilled status
frame, transmit the HardKilled status frame, wait five one-second delays,
and cut main power last; PWM output is never disabled; the resulting state
is HardKilled. -/
theorem C1_hardkill_sequence (s : KillState) :
    killStep s .hardKillReq = (.hardKilled, TKB_HardKill) ∧
    killStep s .onOffRemoved = (.hardKilled, TKB_HardKill) ∧
    TKB_HardKill = TKB_StopAllThrust ++
      [ TKBAction.killThrusters
      , TKBAction.canTX (MIL_CANSimpleTX TKB_CANID Soft_Killed C_KILL_LEN TKB_CAN_BASE)
      , TKBAction.canTX (MIL_CANSimpleTX TKB_CANID Hard_Killed C_KILL_LEN TKB_CAN_BASE)
      , TKBAction.delaySec, TKBAction.delaySec, TKBAction.delaySec
      , TKBAction.delaySec, TKBAction.delaySec
      , TKBAction.killMain ] := by
  refine ⟨?_, ?_, ?_⟩
  · cases s <;> rfl
  · cases s <;> rfl
  · simp [TKB_HardKill, TKB_SoftKill, TKB_IdleThrusters, List.replicate]

/-- C1 witness: the amended hard-kill sequence instantiated in the Running
state. -/
theorem C1_witness :
    killStep KillState.running KillEvent.hardKillReq = (KillState.hardKilled, TKB_HardKill) :=
  (C1_hardkill_sequence KillState.running).1

/-- C2: the soft-kill trace of the source contains no PWM-output-disable
action; it only applies the eight stop pulses, cuts thruster power and
transmits the SoftKilled status frame, although the comments on TKB_SoftKill
and TKB_IdleThrusters both assert that PWM output is disabled. -/
theorem C2_softkill_missing_pwm_disable :
    TKBAction.pwmDisable ∉ TKB_SoftKill ∧
    TKB_SoftKill = TKB_StopAllThrust ++
      [ TKBAction.killThrusters
      , TKBAction.canTX (MIL_CANSimpleTX TKB_CANID Soft_Killed C_KILL_LEN TKB_CAN_BASE) ] := by
  refine ⟨by decide, by simp [TKB_SoftKill, TKB_IdleThrusters]⟩

/-- C3 counterexample: with ActiveLow polarity and a low raw pin level the
spec-side predicate says the magnet is present, yet HALL_CheckGo returns
HALL_LO, which differs from HALL_HI. -/
theorem C3_counterexample :
    HALL_CheckGo false = HALL_LO ∧
    magnetPresentSpec ActivationLevel.activeLow false = true ∧
    HALL_LO ≠ HALL_HI := by
  refine ⟨by decide, by decide, by decide⟩

/-- C3 (amended): each hall check function returns HALL_HI exactly when the
raw pin level is high and HALL_LO exactly when it is low, taking no account
of the configured activation polarity. -/
theorem C3_hall_check_raw_level (raw : Bool) :
    (HALL_CheckGo raw = HALL_HI ↔ raw = true) ∧
    (HALL_CheckSoftKill raw = HALL_HI ↔ raw = true) ∧
    (HALL_Check_ON_OFF raw = HALL_HI ↔ raw = true) ∧
    (HALL_CheckGo raw = HALL_LO ↔ raw = false) := by
  cases raw <;> refine ⟨by decide, by decide, by decide, by decide⟩

/-- C4: for every activation level, the trace of Init_HALL_IO contains no
interrupt or edge configuration call on any pin, even though the switch
selects a magnet-removed edge for each polarity; so no edge-triggered
magnet-removed event is ever configured by hall-sensor initialization. -/
theorem C4_no_edge_interrupt_configured (lvl : UInt8) (pin : HallPin) (edge : EdgeType) :
    HallCfgAction.intConfig pin edge ∉ Init_HALL_IO lvl ∧
    (hallPullEdge HALL_ACT_LO).2 = EdgeType.rising ∧
    (hallPullEdge HALL_ACT_HI).2 = EdgeType.falling := by
  refine ⟨by simp [ Init_HALL_IO], by decide, by decide⟩

/-- C5: each status event's payload is exactly the corresponding literal
byte sequence with a trailing NUL byte, of length C_KILL_LEN for the four
kill frames and C_GO_LEN for the two go frames. -/
theorem C5_status_payloads :
    statusPayload .hardKilled = [0x4B, 0x52, 0x48, 0x41, 0x00] ∧
    statusPayload .softKilled = [0x4B, 0x52, 0x53, 0x41, 0x00] ∧
    statusPayload .hardUnkilled = [0x4B, 0x52, 0x48, 0x55, 0x00] ∧
    statusPayload .softUnkilled = [0x4B, 0x52, 0x53, 0x55, 0x00] ∧
    statusPayload .goAsserted = [0x47, 0x41, 0x00] ∧
    statusPayload .goUnasserted = [0x47, 0x55, 0x00] ∧
    statusLen .hardKilled = 5 ∧ statusLen .softKilled = 5 ∧
    statusLen .hardUnkilled = 5 ∧ statusLen .softUnkilled = 5 ∧
    statusLen .goAsserted = 3 ∧ statusLen .goUnasserted = 3 ∧
    (∀ e, (statusPayload e).length = statusLen e ∧ (statusPayload e).getLast? = some 0) := by
  refine ⟨by decide, by decide, by decide, by decide, by decide, by decide,
          by decide, by decide, by decide, by decide, by decide, by decide, ?_⟩
  intro e
  cases e <;> exact ⟨by decide, by decide⟩

/-- C6: the kill-message check returns 1 exactly when the byte at the
type-tag offset equals the kill start byte and 0 otherwise, the thrust check
does the same against the thrust start byte, and two messages agreeing on
the type-tag byte classify identically, so no other byte matters. -/
theorem C6_msg_classification (m mAlt : Nat → UInt8)
    (h : m MSG_TYPE_IDX = mAlt MSG_TYPE_IDX) :
    (TKB_Check_KillMsg m = 0x01 ↔ m MSG_TYPE_IDX = KILL_START_BYTE) ∧
    (TKB_Check_KillMsg m = 0x00 ↔ m MSG_TYPE_IDX ≠ KILL_START_BYTE) ∧
    (TKB_Check_ThrustMsg m = 0x01 ↔ m MSG_TYPE_IDX = THRUST_START_BYTE) ∧
    (TKB_Check_ThrustMsg m = 0x00 ↔ m MSG_TYPE_IDX ≠ THRUST_START_BYTE) ∧
    TKB_Check_KillMsg m = TKB_Check_KillMsg mAlt ∧
    TKB_Check_ThrustMsg m = TKB_Check_ThrustMsg mAlt := by
  unfold TKB_Check_KillMsg TKB_Check_ThrustMsg
  exact ⟨(check_byte_eq _ _).1, (check_byte_eq _ _).2,
         (check_byte_eq _ _).1, (check_byte_eq _ _).2,
         by rw [h], by rw [h]⟩

/-- C6 witness: a concrete message starting with the kill start byte is
classified as a kill message, and a message agreeing with it only on the
type-tag byte classifies identically. -/
theorem C6_witness :
    TKB_Check_KillMsg (fun _ => 0x4B) = 0x01 ∧
    TKB_Check_KillMsg (fun _ => 0x4B) =
      TKB_Check_KillMsg (fun i => if i = 0 then 0x4B else 0x07) :=
  ⟨(C6_msg_classification (fun _ => 0x4B) (fun i => if i = 0 then 0x4B else 0x07)
      (by decide)).1.mpr (by decide),
   (C6_msg_classification (fun _ => 0x4B) (fun i => if i = 0 then 0x4B else 0x07)
      (by decide)).2.2.2.2.1⟩

/-- C7: over the clamped speed interval the thrust-to-pulse-width mapping is
monotonic non-decreasing in speed, speed zero maps exactly to the stop pulse
width, and the mapping is a pure function of its arguments. -/
theorem C7_thrust_map (s1 s2 p : ℚ) (h1 : -1 ≤ s1) (h12 : s1 ≤ s2) (h2 : s2 ≤ 1)
    (hp : 0 ≤ p) :
    MIL_BR_linear_per s1 p ≤ MIL_BR_linear_per s2 p ∧
    MIL_BR_linear_per 0 p = PWM_STOP_PER p ∧
    (∀ s3 p3, s1 = s3 → p = p3 → MIL_BR_linear_per s1 p = MIL_BR_linear_per s3 p3) := by
  refine ⟨?_, ?_, ?_⟩
  · unfold MIL_BR_linear_per
    rw [clampSpeed_eq_of s1 h1 (le_trans h12 h2), clampSpeed_eq_of s2 (le_trans h1 h12) h2]
    rw [linear_core_eq, linear_core_eq]
    unfold BR_PERIOD_US
    have hdiv : ((1500 : ℚ) + 400 * s1) / 2000 ≤ (1500 + 400 * s2) / 2000 := by linarith
    exact mul_le_mul_of_nonneg_right hdiv hp
  · unfold MIL_BR_linear_per PWM_STOP_PER clampSpeed
    norm_num
  · intro s3 p3 hs hp3
    rw [hs, hp3]

/-- C7 witness: the mapping evaluated at speeds zero and one with the
2000-tick period: monotone step and the exact neutral width. -/
theorem C7_witness :
    MIL_BR_linear_per 0 2000 ≤ MIL_BR_linear_per 1 2000 ∧
    MIL_BR_linear_per 0 2000 = PWM_STOP_PER 2000 :=
  ⟨(C7_thrust_map 0 1 2000 (by norm_num) (by norm_num) (by norm_num) (by norm_num)).1,
   (C7_thrust_map 0 1 2000 (by norm_num) (by norm_num) (by norm_num) (by norm_num)).2.1⟩

/-- C8: from HardKilled, a HardUnkillRequest runs the unkill sequence, whose
actions in order are: power main, power thrusters (twice, once again inside
ESC initialization), two one-second delays, the stop pulse width applied to
all eight channels, and PWM output enabled last; the resulting state is
Running. -/
theorem C8_unkill_sequence :
    killStep .hardKilled .hardUnkillReq = (.running, TKB_UnKill) ∧
    TKB_UnKill = [ TKBAction.powerMain, TKBAction.powerThrusters, TKBAction.powerThrusters
                 , TKBAction.delaySec, TKBAction.delaySec ] ++
                 TKB_StopAllThrust ++ [ TKBAction.pwmEnable ] ∧
    TKB_UnKill.getLast? = some TKBAction.pwmEnable ∧
    TKB_StopAllThrust.length = 8 ∧
    (∀ pin : ThrusterPin,
      TKBAction.setPulse pin (PWM_STOP_PER BR_PERIOD_US) ∈ TKB_StopAllThrust) := by
  refine ⟨rfl, ?_, by decide, by decide, ?_⟩
  · simp [TKB_UnKill, TKB_Init_ESC, List.replicate]
  · intro pin
    cases pin <;> simp [TKB_StopAllThrust]

/-- C9: the simple-transmit wrapper always programs hardware message object
number 0 with flags 0, passing the caller's identifier, length, payload and
module base through unchanged; in particular both status transmissions of a
single hard kill use message object 0. -/
theorem C9_simple_tx (canid : Nat) (pMsg : List UInt8) (msgLen : Nat) (base : Nat) :
    (MIL_CANSimpleTX canid pMsg msgLen base).objNum = 0 ∧
    (MIL_CANSimpleTX canid pMsg msgLen base).flags = 0 ∧
    (MIL_CANSimpleTX canid pMsg msgLen base).msgID = canid ∧
    (MIL_CANSimpleTX canid pMsg msgLen base).msgLen = msgLen ∧
    (MIL_CANSimpleTX canid pMsg msgLen base).data = pMsg ∧
    (MIL_CANSimpleTX canid pMsg msgLen base).base = base ∧
    (TKB_HardKill.all fun a =>
      match a with
      | .canTX ob => ob.objNum == 0
      | _ => true) = true :=
  ⟨rfl, rfl, rfl, rfl, rfl, rfl, by decide⟩

/-- C10: every activation level other than HALL_ACT_LO and HALL_ACT_HI falls
to the default switch case, which is the same weak pull-down and falling
edge selection as HALL_ACT_HI, and the resulting configuration trace is
identical to the ActiveHigh one; no value is rejected. -/
theorem C10_default_activation (lvl : UInt8)
    (hLo : lvl ≠ HALL_ACT_LO) (hHi : lvl ≠ HALL_ACT_HI) :
    hallPullEdge lvl = (PullType.weakPullDown, EdgeType.falling) ∧
    hallPullEdge lvl = hallPullEdge HALL_ACT_HI ∧
    Init_HALL_IO lvl = Init_HALL_IO HALL_ACT_HI := by
  have hh : hallPullEdge HALL_ACT_HI = (PullType.weakPullDown, EdgeType.falling) := by decide
  have hl : hallPullEdge lvl = (PullType.weakPullDown, EdgeType.falling) := by
    simp [hallPullEdge, hLo, hHi]
  refine ⟨hl, by rw [hl, hh], by simp [ Init_HALL_IO, hl, hh]⟩

/-- C10 witness: the undefined activation level 0x2A receives the ActiveHigh
configuration. -/
theorem C10_witness :
    hallPullEdge 0x2A = (PullType.weakPullDown, EdgeType.falling) :=
  (C10_default_activation 0x2A (by decide) (by decide)).1
